import Mathlib

/-!
Verification of the `wxparams` meteorological function library.

The Python source (`wxparams/wxparams.py`) computes meteorological parameters
with NumPy floating-point arithmetic, elementwise over scalars or arrays.
This development shallowly embeds each function over the real numbers `ℝ`:
`np.exp`, `np.log`, `np.log10`, `**` and `np.arctan2` become `Real.exp`,
`Real.log`, `Real.logb 10`, `Real.rpow` and `Complex.arg`; the vectorized
masked-assignment idioms (`a[mask] = v`) become per-element conditionals,
which is faithful because every mask in the source depends only on the
element it overwrites.  The `formula` selector stays a `String`, dispatched
by equality tests exactly as in the source.
-/

noncomputable section

namespace wxparams

/-- Global parameter `abs_t = 273.15` from the source. -/
def abs_t : ℝ := 273.15

/-- Global parameter `R_div_Cp = 0.2857` from the source. -/
def R_div_Cp : ℝ := 0.2857

/-- Global parameter `R_div_Cp_Bolton = 0.2854` from the source. -/
def R_div_Cp_Bolton : ℝ := 0.2854

/-- Global parameter `epsilon = 0.622` from the source. -/
def epsilon : ℝ := 0.622

/-- Global parameter `g0 = 9.80665` from the source. -/
def g0 : ℝ := 9.80665

/-- Global parameter `Rd = 287.04` from the source. -/
def Rd : ℝ := 287.04

/-- Global parameter `gamma_d = 0.00976` from the source. -/
def gamma_d : ℝ := 0.00976

/-- Global parameter `gamma_s = 0.0065` from the source. -/
def gamma_s : ℝ := 0.0065

/-- Global parameter `kappa = 5.257` from the source. -/
def kappa : ℝ := 5.257

/-- `np.arctan2 y x`: the angle of the point `(x, y)`, in `(-π, π]`,
embedded as the argument of the complex number `x + y·i`. -/
def arctan2 (y x : ℝ) : ℝ := Complex.arg (x + y * Complex.I)

/-- `np.rad2deg`. -/
def rad2deg (x : ℝ) : ℝ := x * 180 / Real.pi

/-- `np.deg2rad`. -/
def deg2rad (x : ℝ) : ℝ := x * Real.pi / 180

/-- The wind speed computed by `UV_to_SpdDir`: `np.sqrt(u**2 + v**2)`. -/
def wspdOf (u v : ℝ) : ℝ := Real.sqrt (u ^ 2 + v ^ 2)

/-- The raw wind direction computed by `UV_to_SpdDir` before the masked
overwrites: `np.rad2deg(np.arctan2(u, v)) + 180.0`. -/
def wdirRaw (u v : ℝ) : ℝ := rad2deg (arctan2 u v) + 180.0

/-- The two sequential masked overwrites of `UV_to_SpdDir`, per element:
`wdir[wdir==0] = 360.0` then `wdir[wspd==0] = 0.0` (the second overrides
the first). -/
def windDirAdjust (wspd wdir : ℝ) : ℝ :=
  let w1 := if wdir = 0 then 360.0 else wdir
  if wspd = 0 then 0.0 else w1

/-- `UV_to_SpdDir(u, v)`, per element. -/
def UV_to_SpdDir (u v : ℝ) : ℝ × ℝ :=
  (wspdOf u v, windDirAdjust (wspdOf u v) (wdirRaw u v))

/-- `SpdDir_to_UV(wspd, wdir)`, per element. -/
def SpdDir_to_UV (wspd wdir : ℝ) : ℝ × ℝ :=
  (- wspd * Real.sin (deg2rad wdir), - wspd * Real.cos (deg2rad wdir))

/-- Truncation toward zero, the behaviour of `.astype(np.int64)` on floats. -/
def truncInt (x : ℝ) : ℤ := if x < 0 then Int.ceil x else Int.floor x

/-- The sector index computed by `Deg_to_Dir8`: treat 0 as 720, add the
half-sector offset 22.5, subtract 360 once from values ≥ 360, then
integer-divide by 45. -/
def dir8Index (val : ℝ) : ℤ :=
  let deg0 := if val = 0 then 720.0 else val
  let deg1 := deg0 + 22.5
  let deg2 := if deg1 ≥ 360 then deg1 - 360 else deg1
  truncInt (deg2 / 45)

/-- The label list `dirname` of `Deg_to_Dir8`; its final entry is the
caller-supplied `dir_zero` (Python `None` becomes `Option.none`). -/
def dir8Names (dir_zero : Option String) : List (Option String) :=
  [some "N", some "NE", some "E", some "SE", some "S", some "SW", some "W",
   some "NW", dir_zero]

/-- `Deg_to_Dir8(val, dir_zero, numeric=False)`, per element: look the sector
index up in `dirname`. -/
def Deg_to_Dir8 (val : ℝ) (dir_zero : Option String) : Option String :=
  (dir8Names dir_zero).getD (dir8Index val).toNat none

/-- `T_to_WVP(t, formula)`: saturation water-vapor pressure, by the Tetens,
WMO or Bolton formula (any other selector string falls through to Bolton,
as in the source's `if/elif/else`). -/
def T_to_WVP (t : ℝ) (formula : String) : ℝ :=
  if formula = "Tetens" then 6.1078 * (10 : ℝ) ^ (7.5 * t / (t + 237.3))
  else if formula = "WMO" then Real.exp (19.482 - 4303.4 / (t + 243.5))
  else 6.112 * Real.exp (17.67 * t / (t + 243.5))

/-- `WVP_to_T(es, formula)`: the closed-form inverse of `T_to_WVP`. -/
def WVP_to_T (es : ℝ) (formula : String) : ℝ :=
  if formula = "Tetens" then
    237.3 * Real.logb 10 (6.1078 / es) / (Real.logb 10 (es / 6.1078) - 7.5)
  else if formula = "WMO" then 4303.4 / (19.482 - Real.log es) - 243.5
  else 243.5 * Real.log (es / 6.112) / (17.67 - Real.log (es / 6.112))

/-- The temperature domain of each vapor-pressure formula: the pole of the
exponent's denominator is `-237.3` for Tetens and `-243.5` for WMO and
Bolton (and for any other selector string, which falls through to
Bolton). -/
def wvpDomain (formula : String) (t : ℝ) : Prop :=
  if formula = "Tetens" then -237.3 < t else -243.5 < t

/-- `RH_to_Td(t, rh, formula)`: dew point from temperature and relative
humidity; `rh.clip(0.1, None)` is `max rh 0.1`. -/
def RH_to_Td (t rh : ℝ) (formula : String) : ℝ :=
  let rh2 := max rh 0.1
  let es := T_to_WVP t formula
  let e := es * rh2 / 100
  WVP_to_T e formula

/-- `Td_to_RH(t, td, formula)`: relative humidity from temperature and dew
point. -/
def Td_to_RH (t td : ℝ) (formula : String) : ℝ :=
  let es := T_to_WVP t formula
  let e := T_to_WVP td formula
  100 * e / es

/-- `Mixing_Ratio(td, p, formula)`. -/
def Mixing_Ratio (td p : ℝ) (formula : String) : ℝ :=
  let e := T_to_WVP td formula
  epsilon * e / (p - e)

/-- `Tlcl(t, td)`: temperature at the lifted condensation level, inputs in
Kelvin. -/
def Tlcl (t td : ℝ) : ℝ := 1 / (1 / (td - 56) + Real.log (t / td) / 800) + 56

/-- `Theta_e(t, td, p, formula)`: equivalent potential temperature. -/
def Theta_e (t td p : ℝ) (formula : String) : ℝ :=
  let e := T_to_WVP td formula
  let m := Mixing_Ratio td p formula
  let tK := t + abs_t
  let tdK := td + abs_t
  let t_lcl := Tlcl tK tdK
  tK * (1000 / (p - e)) ^ R_div_Cp_Bolton * (tK / t_lcl) ^ (0.28 * m) *
    Real.exp ((3036 / t_lcl - 1.78) * m * (1 + 0.448 * m))

/-- The convergence threshold `th = 0.001` of `SSI`. -/
def ssiTh : ℝ := 0.001

/-- The refinement loop of `SSI`, per element, with explicit fuel (the
source runs `for i in range(20)`).  Each pass halves the step, recomputes
the residual `ept - Theta_e(tl, tl, p1)` for a not-yet-converged element,
stops once the residual is below the threshold, and otherwise moves `tl`
by the current step in the direction of the signed residual.  A converged
element is frozen by the masks, so the per-element result does not depend
on the other elements of the array. -/
def ssiLoop (ept p1 : ℝ) (formula : String) : ℕ → ℝ → ℝ → ℝ → ℝ
  | 0, _, tl, _ => tl
  | n + 1, step, tl, diff =>
    let step2 := step / 2
    let diff2 := if ssiTh ≤ |diff| then ept - Theta_e tl tl p1 formula else diff
    if |diff2| < ssiTh then tl
    else
      ssiLoop ept p1 formula n step2
        (if ssiTh ≤ diff2 then tl + step2
         else if diff2 ≤ -ssiTh then tl - step2 else tl) diff2

/-- Number of passes through the body of `SSI`'s refinement loop actually
executed (a pass that hits the early-exit convergence test still counts). -/
def ssiLoopSteps (ept p1 : ℝ) (formula : String) : ℕ → ℝ → ℝ → ℝ → ℕ
  | 0, _, _, _ => 0
  | n + 1, step, tl, diff =>
    let step2 := step / 2
    let diff2 := if ssiTh ≤ |diff| then ept - Theta_e tl tl p1 formula else diff
    if |diff2| < ssiTh then 1
    else
      1 + ssiLoopSteps ept p1 formula n step2
        (if ssiTh ≤ diff2 then tl + step2
         else if diff2 ≤ -ssiTh then tl - step2 else tl) diff2

/-- The layer thickness computed by `SSI`: `h1 - h0` when both heights are
passed as keyword arguments, otherwise the hypsometric equation. -/
def ssiThickness (p0 p1 t0 t1 : ℝ) (heights : Option (ℝ × ℝ)) : ℝ :=
  match heights with
  | some hs => hs.2 - hs.1
  | none => Rd * ((t0 + t1) / 2 + abs_t) * Real.log (p0 / p1) / g0

/-- `tl_dry` in `SSI`: the parcel temperature after dry-adiabatic lifting
through the layer. -/
def ssiTlDry (p0 p1 t0 t1 : ℝ) (heights : Option (ℝ × ℝ)) : ℝ :=
  t0 - ssiThickness p0 p1 t0 t1 heights * gamma_d

/-- `t_lcl` in `SSI`: the LCL temperature converted back to Celsius. -/
def ssiTlcl (t0 td0 : ℝ) : ℝ := Tlcl (t0 + abs_t) (td0 + abs_t) - abs_t

/-- The final lifted-parcel temperature `tl` of `SSI`: initialise
`tl = -20`, `diff = 100`, overwrite with `tl_dry` and `th/10` where
`tl_dry > t_lcl`, then run the refinement loop for up to 20 passes with
initial `step = 120`. -/
def ssiTl (p0 p1 t0 t1 td0 : ℝ) (formula : String)
    (heights : Option (ℝ × ℝ)) : ℝ :=
  let tl_dry := ssiTlDry p0 p1 t0 t1 heights
  let t_lcl := ssiTlcl t0 td0
  let tl1 := if tl_dry > t_lcl then tl_dry else (-20 : ℝ)
  let diff1 := if tl_dry > t_lcl then ssiTh / 10 else (100 : ℝ)
  ssiLoop (Theta_e t0 td0 p0 formula) p1 formula 20 120 tl1 diff1

/-- Number of refinement passes `SSI` executes, per element. -/
def ssiSteps (p0 p1 t0 t1 td0 : ℝ) (formula : String)
    (heights : Option (ℝ × ℝ)) : ℕ :=
  let tl_dry := ssiTlDry p0 p1 t0 t1 heights
  let t_lcl := ssiTlcl t0 td0
  let tl1 := if tl_dry > t_lcl then tl_dry else (-20 : ℝ)
  let diff1 := if tl_dry > t_lcl then ssiTh / 10 else (100 : ℝ)
  ssiLoopSteps (Theta_e t0 td0 p0 formula) p1 formula 20 120 tl1 diff1

/-- `SSI(p0, p1, t0, t1, td0, formula, **kwargs)`: the Showalter stability
index, `t1 - tl`. -/
def SSI (p0 p1 t0 t1 td0 : ℝ) (formula : String)
    (heights : Option (ℝ × ℝ)) : ℝ :=
  t1 - ssiTl p0 p1 t0 t1 td0 formula heights

/-- `PRES_to_PRMSL(P, T, z)`: pressure reduced to mean sea level. -/
def PRES_to_PRMSL (P T z : ℝ) : ℝ :=
  P * (1 - (gamma_s * z) / (T + abs_t + gamma_s * z)) ^ (-kappa)

/-- `Surface_Height(P0, P1, T1)`: surface height from sea-level and surface
pressure. -/
def Surface_Height (P0 P1 T1 : ℝ) : ℝ :=
  ((P0 / P1) ^ (1 / kappa) - 1) * (T1 + 273.15) / gamma_s

/-! ### Formula-dispatch lemmas -/

theorem T_to_WVP_tetens (t : ℝ) :
    T_to_WVP t "Tetens" = 6.1078 * (10 : ℝ) ^ (7.5 * t / (t + 237.3)) := by
  unfold T_to_WVP
  rw [if_pos rfl]

theorem T_to_WVP_wmo (t : ℝ) :
    T_to_WVP t "WMO" = Real.exp (19.482 - 4303.4 / (t + 243.5)) := by
  unfold T_to_WVP
  rw [if_neg (by decide), if_pos rfl]

theorem T_to_WVP_bolton (t : ℝ) :
    T_to_WVP t "Bolton" = 6.112 * Real.exp (17.67 * t / (t + 243.5)) := by
  unfold T_to_WVP
  rw [if_neg (by decide), if_neg (by decide)]

theorem WVP_to_T_tetens (es : ℝ) :
    WVP_to_T es "Tetens" =
      237.3 * Real.logb 10 (6.1078 / es) /
        (Real.logb 10 (es / 6.1078) - 7.5) := by
  unfold WVP_to_T
  rw [if_pos rfl]

theorem WVP_to_T_wmo (es : ℝ) :
    WVP_to_T es "WMO" = 4303.4 / (19.482 - Real.log es) - 243.5 := by
  unfold WVP_to_T
  rw [if_neg (by decide), if_pos rfl]

theorem WVP_to_T_bolton (es : ℝ) :
    WVP_to_T es "Bolton" =
      243.5 * Real.log (es / 6.112) / (17.67 - Real.log (es / 6.112)) := by
  unfold WVP_to_T
  rw [if_neg (by decide), if_neg (by decide)]

/-! ### Round-trip lemmas for the vapor-pressure formulas -/

theorem wvp_roundtrip_tetens (t : ℝ) (h : -237.3 < t) :
    WVP_to_T (T_to_WVP t "Tetens") "Tetens" = t := by
  have hd : t + 237.3 ≠ 0 := by linarith
  have h6 : (6.1078 : ℝ) ≠ 0 := by norm_num
  rw [T_to_WVP_tetens, WVP_to_T_tetens]
  have hx1 : Real.logb 10 (6.1078 * (10 : ℝ) ^ (7.5 * t / (t + 237.3)) / 6.1078)
      = 7.5 * t / (t + 237.3) := by
    rw [mul_div_cancel_left₀ _ h6]
    exact Real.logb_rpow (by norm_num) (by norm_num)
  have hx2 : Real.logb 10 (6.1078 / (6.1078 * (10 : ℝ) ^ (7.5 * t / (t + 237.3))))
      = -(7.5 * t / (t + 237.3)) := by
    have he : (6.1078 : ℝ) / (6.1078 * (10 : ℝ) ^ (7.5 * t / (t + 237.3)))
        = ((10 : ℝ) ^ (7.5 * t / (t + 237.3)))⁻¹ := by
      rw [div_mul_eq_div_div, div_self h6, one_div]
    rw [he, Real.logb_inv, Real.logb_rpow (by norm_num) (by norm_num)]
  rw [hx1, hx2]
  have hx75 : 7.5 * t / (t + 237.3) - 7.5 ≠ 0 := by
    have he : 7.5 * t / (t + 237.3) - 7.5 = -(7.5 * 237.3) / (t + 237.3) := by
      field_simp
      ring
    rw [he]
    exact div_ne_zero (by norm_num) hd
  rw [div_eq_iff hx75]
  field_simp
  ring

theorem wvp_roundtrip_wmo (t : ℝ) (h : -243.5 < t) :
    WVP_to_T (T_to_WVP t "WMO") "WMO" = t := by
  have hd : t + 243.5 ≠ 0 := by linarith
  rw [T_to_WVP_wmo, WVP_to_T_wmo, Real.log_exp]
  have he : 19.482 - (19.482 - 4303.4 / (t + 243.5)) = 4303.4 / (t + 243.5) := by
    ring
  rw [he]
  have hc : (4303.4 : ℝ) / (4303.4 / (t + 243.5)) = t + 243.5 := by
    field_simp
  rw [hc]
  ring

theorem wvp_roundtrip_bolton (t : ℝ) (h : -243.5 < t) :
    WVP_to_T (T_to_WVP t "Bolton") "Bolton" = t := by
  have hd : t + 243.5 ≠ 0 := by linarith
  have h6 : (6.112 : ℝ) ≠ 0 := by norm_num
  rw [T_to_WVP_bolton, WVP_to_T_bolton]
  rw [mul_div_cancel_left₀ _ h6, Real.log_exp]
  have hx : 17.67 - 17.67 * t / (t + 243.5) ≠ 0 := by
    have he : 17.67 - 17.67 * t / (t + 243.5) = 17.67 * 243.5 / (t + 243.5) := by
      field_simp
      ring
    rw [he]
    exact div_ne_zero (by norm_num) hd
  rw [div_eq_iff hx]
  field_simp
  ring

/-- Claim C1: for every formula in {Tetens, WMO, Bolton} and every
temperature `t ∈ [-60, 50]` (°C), `WVP_to_T (T_to_WVP t formula) formula = t`
exactly over the reals: `WVP_to_T` is the algebraic inverse of `T_to_WVP`
for the same formula selector. -/
theorem claim_C1_wvp_roundtrip (formula : String)
    (hf : formula ∈ ({"Tetens", "WMO", "Bolton"} : Set String))
    (t : ℝ) (h1 : -60 ≤ t) (h2 : t ≤ 50) :
    WVP_to_T (T_to_WVP t formula) formula = t := by
  rcases hf with hf | hf | hf
  · rw [hf]
    exact wvp_roundtrip_tetens t (by linarith)
  · rw [hf]
    exact wvp_roundtrip_wmo t (by linarith)
  · rw [hf]
    exact wvp_roundtrip_bolton t (by linarith)

/-- Witness for C1 at `formula = "WMO"`, `t = 20`. -/
theorem claim_C1_wvp_roundtrip_witness :
    ("WMO" ∈ ({"Tetens", "WMO", "Bolton"} : Set String) ∧
      (-60 : ℝ) ≤ 20 ∧ (20 : ℝ) ≤ 50) ∧
      WVP_to_T (T_to_WVP 20 "WMO") "WMO" = 20 :=
  ⟨⟨by simp, by norm_num, by norm_num⟩,
    claim_C1_wvp_roundtrip "WMO" (by simp) 20 (by norm_num) (by norm_num)⟩

/-! ### Wind-vector round trip -/

/-- Claim C2: for every speed `s > 0` and direction `d ∈ (0, 360)`,
`UV_to_SpdDir` applied to the pair returned by `SpdDir_to_UV s d`
reproduces `(s, d)` exactly over the reals. -/
theorem claim_C2_wind_roundtrip (s d : ℝ) (hs : 0 < s) (hd1 : 0 < d)
    (hd2 : d < 360) :
    UV_to_SpdDir (SpdDir_to_UV s d).1 (SpdDir_to_UV s d).2 = (s, d) := by
  have hpi := Real.pi_pos
  set θ := deg2rad d with hθdef
  have hθpos : 0 < θ := by
    rw [hθdef]
    unfold deg2rad
    positivity
  have hθlt : θ < 2 * Real.pi := by
    rw [hθdef]
    unfold deg2rad
    rw [div_lt_iff₀ (by norm_num : (0 : ℝ) < 180)]
    nlinarith
  have hu : (SpdDir_to_UV s d).1 = -s * Real.sin θ := rfl
  have hv : (SpdDir_to_UV s d).2 = -s * Real.cos θ := rfl
  have hspd : wspdOf (-s * Real.sin θ) (-s * Real.cos θ) = s := by
    unfold wspdOf
    have hsq : (-s * Real.sin θ) ^ 2 + (-s * Real.cos θ) ^ 2 = s ^ 2 := by
      linear_combination s ^ 2 * Real.sin_sq_add_cos_sq θ
    rw [hsq, Real.sqrt_sq hs.le]
  have harg : arctan2 (-s * Real.sin θ) (-s * Real.cos θ) = θ - Real.pi := by
    unfold arctan2
    have hz : ((-s * Real.cos θ : ℝ) : ℂ) + ((-s * Real.sin θ : ℝ) : ℂ) * Complex.I
        = (s : ℂ) *
          (↑(Real.cos (θ - Real.pi)) + ↑(Real.sin (θ - Real.pi)) * Complex.I) := by
      rw [Real.cos_sub_pi, Real.sin_sub_pi]
      push_cast
      ring
    rw [hz, Complex.arg_real_mul _ hs, Complex.ofReal_cos, Complex.ofReal_sin,
      Complex.arg_cos_add_sin_mul_I (Set.mem_Ioc.mpr ⟨by linarith, by linarith⟩)]
  have hdir : wdirRaw (-s * Real.sin θ) (-s * Real.cos θ) = d := by
    unfold wdirRaw rad2deg
    rw [harg, hθdef]
    unfold deg2rad
    field_simp
    ring
  rw [hu, hv]
  unfold UV_to_SpdDir
  rw [hspd, hdir]
  simp only [windDirAdjust]
  rw [if_neg (ne_of_gt hd1), if_neg (ne_of_gt hs)]

/-- Witness for C2 at `s = 1`, `d = 180`. -/
theorem claim_C2_wind_roundtrip_witness :
    ((0 : ℝ) < 1 ∧ (0 : ℝ) < 180 ∧ (180 : ℝ) < 360) ∧
      UV_to_SpdDir (SpdDir_to_UV 1 180).1 (SpdDir_to_UV 1 180).2 = (1, 180) :=
  ⟨⟨by norm_num, by norm_num, by norm_num⟩,
    claim_C2_wind_roundtrip 1 180 (by norm_num) (by norm_num) (by norm_num)⟩

/-! ### Calm-vs-north convention -/

/-- Claim C7: `UV_to_SpdDir` post-processes the raw direction with the
calm-vs-north convention: a computed direction of exactly 0 with nonzero
speed is reported as 360, a computed speed of exactly 0 forces the reported
direction to 0 (overriding the 360 rule), and in particular
`UV_to_SpdDir 0 0 = (0, 0)`, not `(0, 360)`. -/
theorem claim_C7_calm_convention :
    (∀ u v : ℝ, UV_to_SpdDir u v
        = (wspdOf u v, windDirAdjust (wspdOf u v) (wdirRaw u v))) ∧
      (∀ s d : ℝ,
        (d = 0 → s ≠ 0 → windDirAdjust s d = 360) ∧
          (s = 0 → windDirAdjust s d = 0)) ∧
      UV_to_SpdDir 0 0 = (0, 0) := by
  refine ⟨fun u v => rfl, fun s d => ⟨fun hd hs => ?_, fun hs => ?_⟩, ?_⟩
  · simp only [windDirAdjust]
    rw [if_pos hd, if_neg hs]
    norm_num
  · simp only [windDirAdjust]
    rw [if_pos hs]
    norm_num
  · have hspd : wspdOf (0 : ℝ) 0 = 0 := by
      unfold wspdOf
      norm_num
    unfold UV_to_SpdDir
    rw [hspd]
    simp only [windDirAdjust]
    norm_num

/-- Witness for C7: the 360 rule at `(s, d) = (1, 0)` and the calm override
at `(s, d) = (0, 5)`. -/
theorem claim_C7_calm_convention_witness :
    ((0 : ℝ) = 0 ∧ (1 : ℝ) ≠ 0 ∧ windDirAdjust 1 0 = 360) ∧
      ((0 : ℝ) = 0 ∧ windDirAdjust 0 5 = 0) :=
  ⟨⟨rfl, by norm_num, (claim_C7_calm_convention.2.1 1 0).1 rfl (by norm_num)⟩,
    ⟨rfl, (claim_C7_calm_convention.2.1 0 5).2 rfl⟩⟩

/-! ### Compass-discretization boundaries -/

theorem dir8Index_zero : dir8Index 0 = 8 := by
  norm_num [dir8Index, truncInt]

theorem dir8Index_224 : dir8Index 22.4 = 0 := by
  norm_num [dir8Index, truncInt]

theorem dir8Index_226 : dir8Index 22.6 = 1 := by
  norm_num [dir8Index, truncInt]

/-- Claim C8: with `numeric=False`, `Deg_to_Dir8` maps input exactly 0 to the
caller-supplied zero label (via the treat-0-as-720 pre-shift), input 22.4 to
the label `"N"`, and input 22.6 to the label `"NE"`. -/
theorem claim_C8_dir8_boundaries (dir_zero : Option String) :
    Deg_to_Dir8 0 dir_zero = dir_zero ∧
      Deg_to_Dir8 22.4 dir_zero = some "N" ∧
      Deg_to_Dir8 22.6 dir_zero = some "NE" := by
  refine ⟨?_, ?_, ?_⟩
  · unfold Deg_to_Dir8
    rw [dir8Index_zero]
    rfl
  · unfold Deg_to_Dir8
    rw [dir8Index_224]
    rfl
  · unfold Deg_to_Dir8
    rw [dir8Index_226]
    rfl

/-! ### SSI: unsaturated branch and loop bound -/

theorem ssiLoop_converged (ept p1 : ℝ) (formula : String) (n : ℕ)
    (step tl diff : ℝ) (h : |diff| < ssiTh) :
    ssiLoop ept p1 formula (n + 1) step tl diff = tl := by
  rw [ssiLoop]
  rw [if_neg (not_le.mpr h), if_pos h]

theorem ssiLoopSteps_le (ept p1 : ℝ) (formula : String) :
    ∀ (n : ℕ) (step tl diff : ℝ),
      ssiLoopSteps ept p1 formula n step tl diff ≤ n := by
  intro n
  induction n with
  | zero =>
    intro step tl diff
    rw [ssiLoopSteps]
  | succ n ih =>
    intro step tl diff
    rw [ssiLoopSteps]
    rcases lt_or_le |(if ssiTh ≤ |diff| then ept - Theta_e tl tl p1 formula else diff)| ssiTh
      with hc | hc
    · rw [if_pos hc]
      omega
    · rw [if_neg (not_lt.mpr hc)]
      have h2 := ih (step / 2)
        (if ssiTh ≤ (if ssiTh ≤ |diff| then ept - Theta_e tl tl p1 formula else diff)
          then tl + step / 2
          else if (if ssiTh ≤ |diff| then ept - Theta_e tl tl p1 formula else diff) ≤ -ssiTh
            then tl - step / 2 else tl)
        (if ssiTh ≤ |diff| then ept - Theta_e tl tl p1 formula else diff)
      omega

/-- Claim C3: in `SSI`, for every element whose dry-adiabatically lifted
temperature `tl_dry = t0 - thickness * 0.00976` exceeds the LCL temperature
`Tlcl(t0+273.15, td0+273.15) - 273.15`, the returned value is exactly
`t1 - tl_dry`: the lifted parcel temperature is the dry-adiabatic value,
untouched by the iterative solver. -/
theorem claim_C3_ssi_unsaturated (p0 p1 t0 t1 td0 : ℝ) (formula : String)
    (heights : Option (ℝ × ℝ))
    (h : ssiTlcl t0 td0 < ssiTlDry p0 p1 t0 t1 heights) :
    SSI p0 p1 t0 t1 td0 formula heights
      = t1 - ssiTlDry p0 p1 t0 t1 heights := by
  unfold SSI ssiTl
  simp only []
  rw [if_pos h, if_pos h]
  rw [show (20 : ℕ) = 19 + 1 from rfl]
  rw [ssiLoop_converged]
  rw [abs_of_nonneg (by norm_num [ssiTh] : (0 : ℝ) ≤ ssiTh / 10)]
  norm_num [ssiTh]

/-- Witness for C3: lifting from 850 hPa to 500 hPa with supplied heights
`h0 = 100`, `h1 = 0` (thickness `-100`), `t0 = td0 = 20`, where
`tl_dry = 20.976` exceeds `t_lcl = 20`. -/
theorem claim_C3_ssi_unsaturated_witness :
    ssiTlcl 20 20 < ssiTlDry 850 500 20 (-10) (some (100, 0)) ∧
      SSI 850 500 20 (-10) 20 "Bolton" (some (100, 0))
        = -10 - ssiTlDry 850 500 20 (-10) (some (100, 0)) := by
  have h293 : (20 : ℝ) + abs_t = 293.15 := by norm_num [abs_t]
  have hl : ssiTlcl 20 20 = 20 := by
    unfold ssiTlcl Tlcl
    rw [h293, div_self (by norm_num : (293.15 : ℝ) ≠ 0), Real.log_one]
    norm_num [abs_t]
  have hr : ssiTlDry 850 500 20 (-10) (some (100, 0)) = 20.976 := by
    norm_num [ssiTlDry, ssiThickness, gamma_d]
  have h : ssiTlcl 20 20 < ssiTlDry 850 500 20 (-10) (some (100, 0)) := by
    rw [hl, hr]
    norm_num
  exact ⟨h, claim_C3_ssi_unsaturated 850 500 20 (-10) 20 "Bolton" (some (100, 0)) h⟩

/-- Claim C4: `SSI`'s iterative solver executes at most 20 refinement passes
for every input, and the function always returns the current estimate
`t1 - tl` normally (it is a total function of its inputs). -/
theorem claim_C4_ssi_bounded (p0 p1 t0 t1 td0 : ℝ) (formula : String)
    (heights : Option (ℝ × ℝ)) :
    ssiSteps p0 p1 t0 t1 td0 formula heights ≤ 20 ∧
      SSI p0 p1 t0 t1 td0 formula heights
        = t1 - ssiTl p0 p1 t0 t1 td0 formula heights := by
  constructor
  · unfold ssiSteps
    simp only []
    exact ssiLoopSteps_le _ _ _ 20 _ _ _
  · rfl

/-! ### Strict monotonicity and positivity of the vapor-pressure formulas -/

theorem wvpDomain_tetens (t : ℝ) : wvpDomain "Tetens" t ↔ -237.3 < t := by
  unfold wvpDomain
  rw [if_pos rfl]

theorem wvpDomain_wmo (t : ℝ) : wvpDomain "WMO" t ↔ -243.5 < t := by
  unfold wvpDomain
  rw [if_neg (by decide)]

theorem wvpDomain_bolton (t : ℝ) : wvpDomain "Bolton" t ↔ -243.5 < t := by
  unfold wvpDomain
  rw [if_neg (by decide)]

theorem T_to_WVP_pos (t : ℝ) (formula : String) : 0 < T_to_WVP t formula := by
  unfold T_to_WVP
  split
  · positivity
  · split
    · exact Real.exp_pos _
    · positivity

theorem T_to_WVP_lt_tetens (t1 t2 : ℝ) (h1 : -237.3 < t1) (h2 : -237.3 < t2)
    (h : t1 < t2) : T_to_WVP t1 "Tetens" < T_to_WVP t2 "Tetens" := by
  rw [T_to_WVP_tetens, T_to_WVP_tetens]
  have ha : (0 : ℝ) < t1 + 237.3 := by linarith
  have hb : (0 : ℝ) < t2 + 237.3 := by linarith
  have hx : 7.5 * t1 / (t1 + 237.3) < 7.5 * t2 / (t2 + 237.3) := by
    rw [div_lt_div_iff ha hb]
    nlinarith
  exact (mul_lt_mul_left (by norm_num : (0 : ℝ) < 6.1078)).mpr
    ((Real.rpow_lt_rpow_left_iff (by norm_num : (1 : ℝ) < 10)).mpr hx)

theorem T_to_WVP_lt_wmo (t1 t2 : ℝ) (h1 : -243.5 < t1) (h2 : -243.5 < t2)
    (h : t1 < t2) : T_to_WVP t1 "WMO" < T_to_WVP t2 "WMO" := by
  rw [T_to_WVP_wmo, T_to_WVP_wmo]
  apply Real.exp_lt_exp.mpr
  have hd : 4303.4 / (t2 + 243.5) < 4303.4 / (t1 + 243.5) :=
    div_lt_div_of_pos_left (by norm_num) (by linarith) (by linarith)
  linarith

theorem T_to_WVP_lt_bolton (t1 t2 : ℝ) (h1 : -243.5 < t1) (h2 : -243.5 < t2)
    (h : t1 < t2) : T_to_WVP t1 "Bolton" < T_to_WVP t2 "Bolton" := by
  rw [T_to_WVP_bolton, T_to_WVP_bolton]
  apply (mul_lt_mul_left (by norm_num : (0 : ℝ) < 6.112)).mpr
  apply Real.exp_lt_exp.mpr
  rw [div_lt_div_iff (by linarith) (by linarith)]
  nlinarith

/-- Claim C10 (implicit): for each formula in {Tetens, WMO, Bolton},
`T_to_WVP` is strictly increasing on its domain (`t > -237.3` for Tetens,
`t > -243.5` for WMO and Bolton) and strictly positive there. -/
theorem claim_C10_wvp_strict_mono (formula : String)
    (hf : formula ∈ ({"Tetens", "WMO", "Bolton"} : Set String))
    (t1 t2 : ℝ) (h1 : wvpDomain formula t1) (h2 : wvpDomain formula t2)
    (h : t1 < t2) :
    T_to_WVP t1 formula < T_to_WVP t2 formula ∧ 0 < T_to_WVP t1 formula := by
  refine ⟨?_, T_to_WVP_pos t1 formula⟩
  rcases hf with hf | hf | hf
  · rw [hf] at h1 h2 ⊢
    exact T_to_WVP_lt_tetens t1 t2 ((wvpDomain_tetens t1).mp h1)
      ((wvpDomain_tetens t2).mp h2) h
  · rw [hf] at h1 h2 ⊢
    exact T_to_WVP_lt_wmo t1 t2 ((wvpDomain_wmo t1).mp h1)
      ((wvpDomain_wmo t2).mp h2) h
  · rw [hf] at h1 h2 ⊢
    exact T_to_WVP_lt_bolton t1 t2 ((wvpDomain_bolton t1).mp h1)
      ((wvpDomain_bolton t2).mp h2) h

/-- Witness for C10 at `formula = "Bolton"`, `t1 = 0`, `t2 = 1`. -/
theorem claim_C10_wvp_strict_mono_witness :
    ("Bolton" ∈ ({"Tetens", "WMO", "Bolton"} : Set String) ∧
      wvpDomain "Bolton" 0 ∧ wvpDomain "Bolton" 1 ∧ (0 : ℝ) < 1) ∧
      (T_to_WVP 0 "Bolton" < T_to_WVP 1 "Bolton" ∧ 0 < T_to_WVP 0 "Bolton") :=
  ⟨⟨by simp, (wvpDomain_bolton 0).mpr (by norm_num),
      (wvpDomain_bolton 1).mpr (by norm_num), by norm_num⟩,
    claim_C10_wvp_strict_mono "Bolton" (by simp) 0 1
      ((wvpDomain_bolton 0).mpr (by norm_num))
      ((wvpDomain_bolton 1).mpr (by norm_num)) (by norm_num)⟩

/-! ### Humidity bounds -/

theorem T_to_WVP_le_of_le (formula : String)
    (hf : formula ∈ ({"Tetens", "WMO", "Bolton"} : Set String))
    (td t : ℝ) (h1 : wvpDomain formula td) (h2 : wvpDomain formula t)
    (h : td ≤ t) : T_to_WVP td formula ≤ T_to_WVP t formula := by
  rcases eq_or_lt_of_le h with he | hl
  · rw [he]
  · rcases hf with hf | hf | hf
    · subst hf
      exact (T_to_WVP_lt_tetens td t ((wvpDomain_tetens td).mp h1)
        ((wvpDomain_tetens t).mp h2) hl).le
    · subst hf
      exact (T_to_WVP_lt_wmo td t ((wvpDomain_wmo td).mp h1)
        ((wvpDomain_wmo t).mp h2) hl).le
    · subst hf
      exact (T_to_WVP_lt_bolton td t ((wvpDomain_bolton td).mp h1)
        ((wvpDomain_bolton t).mp h2) hl).le

theorem WVP_to_T_le_tetens (t e : ℝ) (ht : -237.3 < t) (he0 : 0 < e)
    (he : e ≤ T_to_WVP t "Tetens") : WVP_to_T e "Tetens" ≤ t := by
  have hd : (0 : ℝ) < t + 237.3 := by linarith
  set xs := 7.5 * t / (t + 237.3) with hxs_def
  have hxs_lt : xs < 7.5 := by
    rw [hxs_def, div_lt_iff₀ hd]
    nlinarith
  have hlog_es : Real.logb 10 (T_to_WVP t "Tetens" / 6.1078) = xs := by
    rw [T_to_WVP_tetens, mul_div_cancel_left₀ _ (by norm_num : (6.1078 : ℝ) ≠ 0)]
    exact Real.logb_rpow (by norm_num) (by norm_num)
  set x := Real.logb 10 (e / 6.1078) with hx_def
  have hx_le : x ≤ xs := by
    rw [hx_def, ← hlog_es]
    exact Real.logb_le_logb_of_le (by norm_num : (1 : ℝ) < 10) (by positivity)
      ((div_le_div_right (by norm_num : (0 : ℝ) < 6.1078)).mpr he)
  have hx_lt : x < 7.5 := lt_of_le_of_lt hx_le hxs_lt
  rw [WVP_to_T_tetens]
  have hinv : (6.1078 : ℝ) / e = (e / 6.1078)⁻¹ := (inv_div e 6.1078).symm
  rw [hinv, Real.logb_inv, ← hx_def]
  have hne1 : x - 7.5 ≠ 0 := by linarith
  have hpos1 : (0 : ℝ) < 7.5 - x := by linarith
  have hpos2 : (0 : ℝ) < 7.5 - xs := by linarith
  have heq : 237.3 * -x / (x - 7.5) = 237.3 * x / (7.5 - x) := by
    rw [div_eq_div_iff hne1 (ne_of_gt hpos1)]
    ring
  rw [heq]
  have h75 : 7.5 - xs = 7.5 * 237.3 / (t + 237.3) := by
    rw [hxs_def]
    field_simp
    ring
  have ht_eq : 237.3 * xs / (7.5 - xs) = t := by
    rw [h75, hxs_def]
    field_simp
    ring
  have hmono : 237.3 * x / (7.5 - x) ≤ 237.3 * xs / (7.5 - xs) := by
    rw [div_le_div_iff hpos1 hpos2]
    nlinarith
  linarith

theorem WVP_to_T_le_wmo (t e : ℝ) (ht : -243.5 < t) (he0 : 0 < e)
    (he : e ≤ T_to_WVP t "WMO") : WVP_to_T e "WMO" ≤ t := by
  rw [WVP_to_T_wmo]
  have hd : (0 : ℝ) < t + 243.5 := by linarith
  have hA : (0 : ℝ) < 4303.4 / (t + 243.5) := by positivity
  have hlog : Real.log e ≤ 19.482 - 4303.4 / (t + 243.5) := by
    calc Real.log e ≤ Real.log (T_to_WVP t "WMO") := Real.log_le_log he0 he
      _ = 19.482 - 4303.4 / (t + 243.5) := by rw [T_to_WVP_wmo, Real.log_exp]
  have h2 : 4303.4 / (19.482 - Real.log e) ≤ 4303.4 / (4303.4 / (t + 243.5)) :=
    div_le_div_of_nonneg_left (by norm_num) hA (by linarith)
  have h3 : (4303.4 : ℝ) / (4303.4 / (t + 243.5)) = t + 243.5 := by
    field_simp
  linarith

theorem WVP_to_T_le_bolton (t e : ℝ) (ht : -243.5 < t) (he0 : 0 < e)
    (he : e ≤ T_to_WVP t "Bolton") : WVP_to_T e "Bolton" ≤ t := by
  have hd : (0 : ℝ) < t + 243.5 := by linarith
  set ys := 17.67 * t / (t + 243.5) with hys_def
  have hys_lt : ys < 17.67 := by
    rw [hys_def, div_lt_iff₀ hd]
    nlinarith
  have hlog_es : Real.log (T_to_WVP t "Bolton" / 6.112) = ys := by
    rw [T_to_WVP_bolton, mul_div_cancel_left₀ _ (by norm_num : (6.112 : ℝ) ≠ 0),
      Real.log_exp]
  set y := Real.log (e / 6.112) with hy_def
  have hy_le : y ≤ ys := by
    rw [hy_def, ← hlog_es]
    exact Real.log_le_log (by positivity)
      ((div_le_div_right (by norm_num : (0 : ℝ) < 6.112)).mpr he)
  have hy_lt : y < 17.67 := lt_of_le_of_lt hy_le hys_lt
  rw [WVP_to_T_bolton, ← hy_def]
  have hpos1 : (0 : ℝ) < 17.67 - y := by linarith
  have hpos2 : (0 : ℝ) < 17.67 - ys := by linarith
  have h17 : 17.67 - ys = 17.67 * 243.5 / (t + 243.5) := by
    rw [hys_def]
    field_simp
    ring
  have ht_eq : 243.5 * ys / (17.67 - ys) = t := by
    rw [h17, hys_def]
    field_simp
    ring
  have hmono : 243.5 * y / (17.67 - y) ≤ 243.5 * ys / (17.67 - ys) := by
    rw [div_le_div_iff hpos1 hpos2]
    nlinarith
  linarith

/-- Claim C5: for every formula and every `t`, `td` in the formula's domain
with `td ≤ t`, `Td_to_RH t td formula ∈ (0, 100]`; and for every `t` in the
domain and every `rh ∈ (0, 100]`, `RH_to_Td t rh formula ≤ t`. -/
theorem claim_C5_humidity_bounds (formula : String)
    (hf : formula ∈ ({"Tetens", "WMO", "Bolton"} : Set String)) :
    (∀ t td : ℝ, wvpDomain formula t → wvpDomain formula td → td ≤ t →
        0 < Td_to_RH t td formula ∧ Td_to_RH t td formula ≤ 100) ∧
      (∀ t rh : ℝ, wvpDomain formula t → 0 < rh → rh ≤ 100 →
        RH_to_Td t rh formula ≤ t) := by
  constructor
  · intro t td h1 h2 hle
    have hEpos := T_to_WVP_pos td formula
    have hESpos := T_to_WVP_pos t formula
    have hee := T_to_WVP_le_of_le formula hf td t h2 h1 hle
    unfold Td_to_RH
    constructor
    · exact div_pos (mul_pos (by norm_num) hEpos) hESpos
    · rw [mul_div_assoc]
      have hr : T_to_WVP td formula / T_to_WVP t formula ≤ 1 :=
        (div_le_one hESpos).mpr hee
      nlinarith
  · intro t rh h1 hrh0 hrh100
    have hESpos := T_to_WVP_pos t formula
    have hm1 : (0.1 : ℝ) ≤ max rh 0.1 := le_max_right _ _
    have hm2 : max rh 0.1 ≤ 100 := max_le hrh100 (by norm_num)
    have hepos : 0 < T_to_WVP t formula * max rh 0.1 / 100 :=
      div_pos (mul_pos hESpos (lt_of_lt_of_le (by norm_num) hm1)) (by norm_num)
    have hele : T_to_WVP t formula * max rh 0.1 / 100 ≤ T_to_WVP t formula := by
      rw [div_le_iff₀ (by norm_num : (0 : ℝ) < 100)]
      nlinarith
    unfold RH_to_Td
    rcases hf with hff | hff | hff
    · subst hff
      exact WVP_to_T_le_tetens t _ ((wvpDomain_tetens t).mp h1) hepos hele
    · subst hff
      exact WVP_to_T_le_wmo t _ ((wvpDomain_wmo t).mp h1) hepos hele
    · subst hff
      exact WVP_to_T_le_bolton t _ ((wvpDomain_bolton t).mp h1) hepos hele

/-- Witness for C5 at `formula = "Bolton"`, `t = 20`, `td = 10`, `rh = 50`. -/
theorem claim_C5_humidity_bounds_witness :
    ("Bolton" ∈ ({"Tetens", "WMO", "Bolton"} : Set String) ∧
      wvpDomain "Bolton" 20 ∧ wvpDomain "Bolton" 10 ∧ (10 : ℝ) ≤ 20 ∧
        (0 : ℝ) < 50 ∧ (50 : ℝ) ≤ 100) ∧
      (0 < Td_to_RH 20 10 "Bolton" ∧ Td_to_RH 20 10 "Bolton" ≤ 100) ∧
      RH_to_Td 20 50 "Bolton" ≤ 20 := by
  have hmem : "Bolton" ∈ ({"Tetens", "WMO", "Bolton"} : Set String) := by simp
  have h20 := (wvpDomain_bolton 20).mpr (by norm_num)
  have h10 := (wvpDomain_bolton 10).mpr (by norm_num)
  exact ⟨⟨hmem, h20, h10, by norm_num, by norm_num, by norm_num⟩,
    (claim_C5_humidity_bounds "Bolton" hmem).1 20 10 h20 h10 (by norm_num),
    (claim_C5_humidity_bounds "Bolton" hmem).2 20 50 h20 (by norm_num)
      (by norm_num)⟩

/-! ### Sea-level pressure reduction and its inverse -/

/-- Claim C6: `Surface_Height` is the inverse of the sea-level pressure
reduction: for every `P > 0`, `T` with `T + 273.15 > 0` and `z ≥ 0`,
`Surface_Height (PRES_to_PRMSL P T z) P T = z` exactly over the reals. -/
theorem claim_C6_surface_height_inverse (P T z : ℝ) (hP : 0 < P)
    (hT : 0 < T + 273.15) (hz : 0 ≤ z) :
    Surface_Height (PRES_to_PRMSL P T z) P T = z := by
  unfold Surface_Height PRES_to_PRMSL abs_t gamma_s kappa
  have hgz : (0 : ℝ) ≤ 0.0065 * z := mul_nonneg (by norm_num) hz
  have hD : (0 : ℝ) < T + 273.15 + 0.0065 * z := by linarith
  have hbase : 1 - 0.0065 * z / (T + 273.15 + 0.0065 * z)
      = (T + 273.15) / (T + 273.15 + 0.0065 * z) := by
    field_simp
  rw [hbase]
  have hposbase : (0 : ℝ) < (T + 273.15) / (T + 273.15 + 0.0065 * z) :=
    div_pos hT hD
  rw [Real.rpow_neg hposbase.le, mul_div_assoc,
    mul_div_cancel_left₀ _ (ne_of_gt hP),
    ← Real.inv_rpow hposbase.le, inv_div,
    ← Real.rpow_mul (div_pos hD hT).le]
  have hone : (5.257 : ℝ) * (1 / 5.257) = 1 := by norm_num
  rw [hone, Real.rpow_one]
  field_simp

/-- Witness for C6 at `P = 1000`, `T = 15`, `z = 100`. -/
theorem claim_C6_surface_height_inverse_witness :
    ((0 : ℝ) < 1000 ∧ (0 : ℝ) < 15 + 273.15 ∧ (0 : ℝ) ≤ 100) ∧
      Surface_Height (PRES_to_PRMSL 1000 15 100) 1000 15 = 100 :=
  ⟨⟨by norm_num, by norm_num, by norm_num⟩,
    claim_C6_surface_height_inverse 1000 15 100 (by norm_num) (by norm_num)
      (by norm_num)⟩

end wxparams

end
